import Mathlib

/-!
Shallow embedding of the `tgerk/cors` middleware (`src/index.ts`).

The data model mirrors the TypeScript source: JavaScript union-typed option
fields become small inductive types, absent object properties become `Option`,
and JavaScript truthiness is made explicit per type.  Regular expressions are
opaque to the source (only `RegExp.test` is ever called), so a pattern is
embedded as its test function `String → Bool`; `RegExp.test(undefined)`
coerces the argument to the string `"undefined"`, which the embedding
reproduces.  The external `vary` package is modelled as case-insensitive
append-if-absent on the response's Vary list.  The continuation `next` is
modelled by recording the list of its invocations (each carrying the optional
error argument), in the synchronous-completion order of the source.
-/

namespace Cors

/-- Errors passed through callbacks (`err: any` in the source); an opaque
value, propagation is value equality. -/
abbrev Err := String

/-- One entry of an origin array: the runtime `allowed` helper
(src/index.ts:179-192) accepts a string, a RegExp, or any other value
discriminated by truthiness (booleans in particular). -/
inductive OriginEntry where
  | str (s : String)
  | pattern (test : String → Bool)
  | bool (b : Bool)

/-- The resolved `Origin` union type (src/index.ts:23):
`boolean | string | RegExp | (string | RegExp)[]`. -/
inductive Origin where
  | bool (b : Bool)
  | str (s : String)
  | pattern (test : String → Bool)
  | list (entries : List OriginEntry)

/-- The `origin` option before resolution: a concrete value or the dynamic
resolver callback (src/index.ts:25-28), modelled as a synchronously
completing function from the request's Origin header to the
`(err, origin)` pair it passes to its callback. -/
inductive OriginOpt where
  | val (v : Origin)
  | fn (f : Option String → Option Err × Option Origin)

/-- `string | string[]` option fields (methods, allowedHeaders, headers,
exposedHeaders). -/
inductive StrOrList where
  | str (s : String)
  | list (xs : List String)
deriving DecidableEq

/-- The `credentials` slot: a boolean, or (since the check in the source is
`credentials === true`) any other JavaScript value, abstracted to its
truthiness. -/
inductive CredVal where
  | bool (b : Bool)
  | other (truthy : Bool)
deriving DecidableEq

/-- The `maxAge` slot: `number | string` (src/index.ts:42). -/
inductive MaxAgeVal where
  | num (n : Int)
  | str (s : String)
deriving DecidableEq

/-- The `Options` interface (src/index.ts:35-45); every property is
optional. -/
structure OptionsT where
  origin : Option OriginOpt
  methods : Option StrOrList
  allowedHeaders : Option StrOrList
  headers : Option StrOrList
  exposedHeaders : Option StrOrList
  credentials : Option CredVal
  maxAge : Option MaxAgeVal
  preflightContinue : Option Bool
  optionsSuccessStatus : Option Nat

/-- The options record received by `corsHandler` (src/index.ts:104-107):
identical to `Options` except `origin` is a concrete `Origin`. -/
structure ResolvedOptions where
  origin : Origin
  methods : Option StrOrList
  allowedHeaders : Option StrOrList
  headers : Option StrOrList
  exposedHeaders : Option StrOrList
  credentials : Option CredVal
  maxAge : Option MaxAgeVal
  preflightContinue : Option Bool
  optionsSuccessStatus : Option Nat

/-- Request metadata read by the middleware: `req.method`,
`req.headers.origin`, `req.headers["access-control-request-headers"]`.
`rest` carries the remaining request headers, which the engine never
reads. -/
structure Req where
  method : Option String
  origin : Option String
  acrh : Option String
  rest : List (String × String)
deriving DecidableEq

/-- Response state: the set headers, the accumulated Vary field list, the
status code, whether `end()` was called, and the body written so far. -/
structure Res where
  headers : List (String × String)
  vary : List String
  statusCode : Option Nat
  ended : Bool
  body : String
deriving DecidableEq

/-- First value for a header name in the response's header list. -/
def getH : List (String × String) → String → Option String
  | [], _ => none
  | (k, v) :: t, n => if k = n then some v else getH t n

/-- `res.setHeader(n, v)`: replace any existing entry for `n`, keeping other
entries. -/
def setH : List (String × String) → String → String → List (String × String)
  | [], n, v => [(n, v)]
  | (k, w) :: t, n, v => if k = n then setH t n v else (k, w) :: setH t n v

/-- Whether the Vary list already names field `n` (case-insensitive, as the
`vary` package compares). -/
def hasVary (vs : List String) (n : String) : Bool :=
  vs.any (fun x => x.toLower = n.toLower)

/-- `vary(res, n)` from the external `vary` package: append the field if not
already present. -/
def addVary (vs : List String) (n : String) : List String :=
  if hasVary vs n then vs else vs ++ [n]

def setResHeader (res : Res) (n v : String) : Res :=
  { res with headers := setH res.headers n v }

def addResVary (res : Res) (n : String) : Res :=
  { res with vary := addVary res.vary n }

/-- JavaScript truthiness of a resolved `Origin` value: `false` and the empty
string are falsy; RegExp objects and arrays (even empty) are truthy. -/
def truthyOrigin : Origin → Bool
  | .bool b => b
  | .str s => decide (s ≠ "")
  | .pattern _ => true
  | .list _ => true

/-- Truthiness of the (possibly absent) `origin` option slot; a resolver
function is truthy. -/
def truthyOriginOpt : Option OriginOpt → Bool
  | none => false
  | some (.fn _) => true
  | some (.val v) => truthyOrigin v

/-- Truthiness of the value a dynamic origin resolver yielded (`undefined`
is falsy). -/
def truthyYield : Option Origin → Bool
  | none => false
  | some v => truthyOrigin v

/-- The inner `allowed` helper (src/index.ts:179-192).  `RegExp.test`
receives `origin!`, whose runtime value may be `undefined`; JavaScript
coerces that to the string `"undefined"`. -/
def entryAllowed (reqOrigin : Option String) : OriginEntry → Bool
  | .pattern t => t (reqOrigin.getD "undefined")
  | .str s => decide (reqOrigin = some s)
  | .bool b => b

/-- `isOriginAllowed` (src/index.ts:167-193): an array matches if any entry
matches; a non-array is tested directly. -/
def isOriginAllowed (reqOrigin : Option String) : Origin → Bool
  | .list es => es.any (entryAllowed reqOrigin)
  | .bool b => entryAllowed reqOrigin (.bool b)
  | .str s => entryAllowed reqOrigin (.str s)
  | .pattern t => entryAllowed reqOrigin (.pattern t)

/-- `originHeaders` (src/index.ts:142-161).  Branch order of the source:
falsy origin or the literal string `"*"` &rarr; wildcard header; other
strings &rarr; fixed value plus `Vary: Origin`; anything else (boolean
`true`, RegExp, array) &rarr; reflect the request origin when allowed and
truthy, otherwise set nothing. -/
def originHeadersStep (o : ResolvedOptions) (req : Req) (res : Res) : Res :=
  match o.origin with
  | .bool false => setResHeader res "Access-Control-Allow-Origin" "*"
  | .str s =>
      if s = "" ∨ s = "*" then setResHeader res "Access-Control-Allow-Origin" "*"
      else setResHeader (addResVary res "Origin") "Access-Control-Allow-Origin" s
  | org =>
      match req.origin with
      | some ro =>
          if isOriginAllowed (some ro) org = true ∧ ro ≠ "" then
            setResHeader (addResVary res "Origin") "Access-Control-Allow-Origin" ro
          else res
      | none => res

/-- `credentialsHeaders` (src/index.ts:196-201): strict `=== true`. -/
def credentialsHeadersStep (o : ResolvedOptions) (res : Res) : Res :=
  match o.credentials with
  | some (.bool true) => setResHeader res "Access-Control-Allow-Credentials" "true"
  | _ => res

/-- `array.join(",")` applied when the value is an array, identity on
strings. -/
def joinSL : StrOrList → String
  | .str s => s
  | .list xs => String.intercalate "," xs

/-- JavaScript truthiness of a `string | string[]` value: empty string is
falsy, any array (even empty) is truthy. -/
def truthySL : StrOrList → Bool
  | .str s => decide (s ≠ "")
  | .list _ => true

def truthyOptSL : Option StrOrList → Bool
  | none => false
  | some v => truthySL v

/-- `methodsHeaders` (src/index.ts:203-212). -/
def methodsHeadersStep (o : ResolvedOptions) (res : Res) : Res :=
  match o.methods with
  | none => res
  | some m =>
      let s := joinSL m
      if s = "" then res else setResHeader res "Access-Control-Allow-Methods" s

/-- The reflection branch of `allowedHeaders` (src/index.ts:224-231). -/
def reflectRequestHeaders (req : Req) (res : Res) : Res :=
  match req.acrh with
  | some a =>
      if a = "" then res
      else
        setResHeader (addResVary res "Access-Control-Request-Headers")
          "Access-Control-Allow-Headers" a
  | none => res

/-- `allowedHeaders` (src/index.ts:214-232): `options.allowedHeaders ||
options.headers`; when that is truthy, join and set if the joined string is
non-empty (an empty array is truthy, joins to `""`, and sets nothing while
still suppressing reflection); otherwise reflect the request's
`Access-Control-Request-Headers`. -/
def allowedHeadersStep (o : ResolvedOptions) (req : Req) (res : Res) : Res :=
  let hdrs := if truthyOptSL o.allowedHeaders then o.allowedHeaders else o.headers
  match hdrs with
  | some v =>
      if truthySL v then
        let s := joinSL v
        if s = "" then res else setResHeader res "Access-Control-Allow-Headers" s
      else reflectRequestHeaders req res
  | none => reflectRequestHeaders req res

/-- The string `maxAge.toString()` evaluates to in the source's
`(typeof maxAge === "number" || maxAge) && maxAge.toString()` chain. -/
def maxAgeToString : MaxAgeVal → String
  | .num n => toString n
  | .str s => s

/-- `cacheHeaders` (src/index.ts:234-240): numbers always stringify (zero
included); strings must be truthy; set the header when the resulting string
is non-empty. -/
def cacheHeadersStep (o : ResolvedOptions) (res : Res) : Res :=
  match o.maxAge with
  | none => res
  | some (.num n) =>
      let s := toString n
      if s = "" then res else setResHeader res "Access-Control-Max-Age" s
  | some (.str s) =>
      if s = "" then res else setResHeader res "Access-Control-Max-Age" s

/-- `exposedHeaders` (src/index.ts:242-253). -/
def exposedHeadersStep (o : ResolvedOptions) (res : Res) : Res :=
  match o.exposedHeaders with
  | none => res
  | some v =>
      if truthySL v then
        let s := joinSL v
        if s = "" then res else setResHeader res "Access-Control-Expose-Headers" s
      else res

/-- JavaScript's `toUpperCase`, modelled character-wise over the string's
characters (spelled with `String.mk`/`List.map` so that it evaluates by
kernel reduction). -/
def jsToUpper (s : String) : String := String.mk (s.data.map Char.toUpper)

/-- `req.method && req.method.toUpperCase() === "OPTIONS"`
(src/index.ts:112-115). -/
def isOptionsMethod : Option String → Bool
  | none => false
  | some m => decide (jsToUpper m = "OPTIONS")

/-- The header sequence of the preflight branch (src/index.ts:118-123). -/
def preflightPipeline (o : ResolvedOptions) (req : Req) (res : Res) : Res :=
  exposedHeadersStep o (cacheHeadersStep o (allowedHeadersStep o req
    (methodsHeadersStep o (credentialsHeadersStep o (originHeadersStep o req res)))))

/-- The header sequence of the actual-request branch (src/index.ts:137-139). -/
def actualPipeline (o : ResolvedOptions) (req : Req) (res : Res) : Res :=
  exposedHeadersStep o (credentialsHeadersStep o (originHeadersStep o req res))

/-- `corsHandler` (src/index.ts:104-254).  Returns the final response state
and whether it invoked `next` (the preflight short-circuit instead sets the
status, `Content-Length: 0`, and ends the response). -/
def corsHandler (o : ResolvedOptions) (req : Req) (res : Res) : Res × Bool :=
  if isOptionsMethod req.method then
    let r := preflightPipeline o req res
    if o.preflightContinue.getD false then (r, true)
    else
      ({ setResHeader r "Content-Length" "0" with
          statusCode := o.optionsSuccessStatus, ended := true }, false)
  else
    (actualPipeline o req res, true)

/-- `defaults` (src/index.ts:52-57). -/
def defaults : OptionsT where
  origin := some (.val (.str "*"))
  methods := some (.str "GET,HEAD,PUT,PATCH,POST,DELETE")
  allowedHeaders := none
  headers := none
  exposedHeaders := none
  credentials := none
  maxAge := none
  preflightContinue := some false
  optionsSuccessStatus := some 204

/-- Property-wise semantics of `{ ...defaults, ...options }`: a property
present on `options` (even with a falsy value) wins, otherwise the default
applies. -/
def orDefault {α : Type} (supplied d : Option α) : Option α :=
  match supplied with
  | some v => some v
  | none => d

/-- `options = { ...defaults, ...options }` (src/index.ts:79); the spread
builds a fresh record and leaves `defaults` untouched. -/
def mergeOptions (o : OptionsT) : OptionsT where
  origin := orDefault o.origin defaults.origin
  methods := orDefault o.methods defaults.methods
  allowedHeaders := orDefault o.allowedHeaders defaults.allowedHeaders
  headers := orDefault o.headers defaults.headers
  exposedHeaders := orDefault o.exposedHeaders defaults.exposedHeaders
  credentials := orDefault o.credentials defaults.credentials
  maxAge := orDefault o.maxAge defaults.maxAge
  preflightContinue := orDefault o.preflightContinue defaults.preflightContinue
  optionsSuccessStatus := orDefault o.optionsSuccessStatus defaults.optionsSuccessStatus

/-- `{ ...options, origin }` (src/index.ts:93). -/
def resolveOptions (o : OptionsT) (org : Origin) : ResolvedOptions where
  origin := org
  methods := o.methods
  allowedHeaders := o.allowedHeaders
  headers := o.headers
  exposedHeaders := o.exposedHeaders
  credentials := o.credentials
  maxAge := o.maxAge
  preflightContinue := o.preflightContinue
  optionsSuccessStatus := o.optionsSuccessStatus

/-- Result of one middleware run: final response state plus the arguments of
every `next` invocation, in order. -/
structure MwResult where
  res : Res
  nextCalls : List (Option Err)
deriving DecidableEq

/-- `corsMdlwrOrigin` (src/index.ts:87-94), given the `(err, origin)` pair
the resolution yielded: `if (err || !origin) next(err)` else run
`corsHandler`. -/
def corsMdlwrOrigin (options : OptionsT) (req : Req) (res : Res)
    (err : Option Err) (origin : Option Origin) : Res × List (Option Err) :=
  match err, origin with
  | some e, _ => (res, [some e])
  | none, none => (res, [none])
  | none, some org =>
      if truthyOrigin org then
        let rc := corsHandler (resolveOptions options org) req res
        (rc.1, if rc.2 then [none] else [])
      else (res, [none])

/-- The `(err, origin)` pair produced for `corsMdlwrOrigin`
(src/index.ts:81-85): invoke the dynamic resolver with
`req.headers.origin`, or pass a static origin through with no error. -/
def resolveOriginValue (o : OptionsT) (req : Req) : Option Err × Option Origin :=
  match o.origin with
  | some (.fn f) => f req.origin
  | some (.val v) => (none, some v)
  | none => (none, none)

/-- `corsMdlwrOptions` (src/index.ts:73-99).  Note the source's trailing
`next()` on line 97 is outside the `if (options.origin)` block, so it runs
after the origin branch as well. -/
def corsMdlwrOptions (req : Req) (res : Res) (err : Option Err)
    (options : Option OptionsT) : MwResult :=
  match err with
  | some e => ⟨res, [some e]⟩
  | none =>
      let o := mergeOptions (options.getD ⟨none, none, none, none, none, none, none, none, none⟩)
      if truthyOriginOpt o.origin then
        let eo := resolveOriginValue o req
        let rc := corsMdlwrOrigin o req res eo.1 eo.2
        ⟨rc.1, rc.2 ++ [none]⟩
      else ⟨res, [none]⟩

/-- The factory argument: a static options object or the dynamic options
callback (src/index.ts:47-50), the latter modelled as a synchronously
completing function. -/
inductive CorsOptsInput where
  | staticOpts (o : OptionsT)
  | callbackOpts (f : Req → Option Err × Option OptionsT)

/-- `corsMiddleware` (src/index.ts:62-100). -/
def corsMiddleware (corsOpts : CorsOptsInput) (req : Req) (res : Res) : MwResult :=
  match corsOpts with
  | .staticOpts o => corsMdlwrOptions req res none (some o)
  | .callbackOpts f =>
      let eo := f req
      corsMdlwrOptions req res eo.1 eo.2

/-- An options object with no property set. -/
def emptyOptions : OptionsT := ⟨none, none, none, none, none, none, none, none, none⟩

/-- A fresh response: no headers, no Vary, no status, not ended, empty
body. -/
def emptyRes : Res := ⟨[], [], none, false, ""⟩

/-- Whether the origin policy is a RegExp pattern or an array. -/
def isPatternOrList : Origin → Bool
  | .pattern _ => true
  | .list _ => true
  | _ => false

/-! ### Basic lemmas about the response-state primitives -/

theorem getH_setH (hs : List (String × String)) (n v m : String) :
    getH (setH hs n v) m = if m = n then some v else getH hs m := by
  induction hs with
  | nil =>
      simp only [setH, getH]
      by_cases h : m = n
      · subst h; simp
      · rw [if_neg (fun hh : n = m => h hh.symm), if_neg h]
  | cons p t ih =>
      obtain ⟨k, w⟩ := p
      simp only [setH]
      by_cases hk : k = n
      · subst hk
        rw [if_pos rfl, ih]
        by_cases h : m = k
        · subst h; simp
        · rw [if_neg h, if_neg h]
          simp only [getH]
          rw [if_neg (fun hh : k = m => h hh.symm)]
      · rw [if_neg hk]
        simp only [getH]
        by_cases h : k = m
        · subst h
          simp [hk]
        · rw [if_neg h, if_neg h, ih]

theorem setResHeader_headers (res : Res) (n v : String) :
    (setResHeader res n v).headers = setH res.headers n v := rfl

theorem setResHeader_vary (res : Res) (n v : String) :
    (setResHeader res n v).vary = res.vary := rfl

theorem setResHeader_body (res : Res) (n v : String) :
    (setResHeader res n v).body = res.body := rfl

theorem addResVary_headers (res : Res) (n : String) :
    (addResVary res n).headers = res.headers := rfl

theorem addResVary_body (res : Res) (n : String) :
    (addResVary res n).body = res.body := rfl

theorem hasVary_addVary_self (vs : List String) (n : String) :
    hasVary (addVary vs n) n = true := by
  unfold addVary
  by_cases h : hasVary vs n
  · rw [if_pos h]; exact h
  · rw [if_neg h]
    unfold hasVary
    simp [List.any_append]

theorem hasVary_addVary_mono (vs : List String) (n m : String)
    (h : hasVary vs m = true) : hasVary (addVary vs n) m = true := by
  unfold addVary
  by_cases hc : hasVary vs n
  · rw [if_pos hc]; exact h
  · rw [if_neg hc]
    unfold hasVary at h ⊢
    simp [List.any_append, h]

/-! ### Frame lemmas: each header step only touches its own header name -/

theorem originStep_getH (o : ResolvedOptions) (req : Req) (res : Res) (m : String)
    (h : m ≠ "Access-Control-Allow-Origin") :
    getH (originHeadersStep o req res).headers m = getH res.headers m := by
  unfold originHeadersStep
  split
  · rw [setResHeader_headers, getH_setH, if_neg h]
  · split
    · rw [setResHeader_headers, getH_setH, if_neg h]
    · rw [setResHeader_headers, getH_setH, if_neg h, addResVary_headers]
  · split
    · split
      · rw [setResHeader_headers, getH_setH, if_neg h, addResVary_headers]
      · rfl
    · rfl

theorem originStep_body (o : ResolvedOptions) (req : Req) (res : Res) :
    (originHeadersStep o req res).body = res.body := by
  unfold originHeadersStep
  split
  · rfl
  · split <;> rfl
  · split
    · split <;> rfl
    · rfl

theorem originStep_vary_mono (o : ResolvedOptions) (req : Req) (res : Res) (m : String)
    (h : hasVary res.vary m = true) :
    hasVary (originHeadersStep o req res).vary m = true := by
  unfold originHeadersStep
  split
  · exact h
  · split
    · exact h
    · exact hasVary_addVary_mono _ _ _ h
  · split
    · split
      · exact hasVary_addVary_mono _ _ _ h
      · exact h
    · exact h

theorem credStep_getH (o : ResolvedOptions) (res : Res) (m : String)
    (h : m ≠ "Access-Control-Allow-Credentials") :
    getH (credentialsHeadersStep o res).headers m = getH res.headers m := by
  unfold credentialsHeadersStep
  split
  · rw [setResHeader_headers, getH_setH, if_neg h]
  · rfl

theorem credStep_vary (o : ResolvedOptions) (res : Res) :
    (credentialsHeadersStep o res).vary = res.vary := by
  unfold credentialsHeadersStep
  split <;> rfl

theorem credStep_body (o : ResolvedOptions) (res : Res) :
    (credentialsHeadersStep o res).body = res.body := by
  unfold credentialsHeadersStep
  split <;> rfl

theorem methodsStep_getH (o : ResolvedOptions) (res : Res) (m : String)
    (h : m ≠ "Access-Control-Allow-Methods") :
    getH (methodsHeadersStep o res).headers m = getH res.headers m := by
  unfold methodsHeadersStep
  split
  · rfl
  · try dsimp only
    split
    · rfl
    · rw [setResHeader_headers, getH_setH, if_neg h]

theorem methodsStep_vary (o : ResolvedOptions) (res : Res) :
    (methodsHeadersStep o res).vary = res.vary := by
  unfold methodsHeadersStep
  split
  · rfl
  · try dsimp only
    split <;> rfl

theorem methodsStep_body (o : ResolvedOptions) (res : Res) :
    (methodsHeadersStep o res).body = res.body := by
  unfold methodsHeadersStep
  split
  · rfl
  · try dsimp only
    split <;> rfl

theorem reflectStep_getH (req : Req) (res : Res) (m : String)
    (h : m ≠ "Access-Control-Allow-Headers") :
    getH (reflectRequestHeaders req res).headers m = getH res.headers m := by
  unfold reflectRequestHeaders
  split
  · split
    · rfl
    · rw [setResHeader_headers, getH_setH, if_neg h, addResVary_headers]
  · rfl

theorem reflectStep_body (req : Req) (res : Res) :
    (reflectRequestHeaders req res).body = res.body := by
  unfold reflectRequestHeaders
  split
  · split <;> rfl
  · rfl

theorem reflectStep_vary_mono (req : Req) (res : Res) (m : String)
    (h : hasVary res.vary m = true) :
    hasVary (reflectRequestHeaders req res).vary m = true := by
  unfold reflectRequestHeaders
  split
  · split
    · exact h
    · exact hasVary_addVary_mono _ _ _ h
  · exact h

theorem allowedStep_getH (o : ResolvedOptions) (req : Req) (res : Res) (m : String)
    (h : m ≠ "Access-Control-Allow-Headers") :
    getH (allowedHeadersStep o req res).headers m = getH res.headers m := by
  unfold allowedHeadersStep
  split
  · try dsimp only
    split
    · split
      · try dsimp only
        split
        · rfl
        · rw [setResHeader_headers, getH_setH, if_neg h]
      · exact reflectStep_getH _ _ _ h
    · exact reflectStep_getH _ _ _ h
  · try dsimp only
    split
    · split
      · try dsimp only
        split
        · rfl
        · rw [setResHeader_headers, getH_setH, if_neg h]
      · exact reflectStep_getH _ _ _ h
    · exact reflectStep_getH _ _ _ h

theorem allowedStep_vary_mono (o : ResolvedOptions) (req : Req) (res : Res) (m : String)
    (h : hasVary res.vary m = true) :
    hasVary (allowedHeadersStep o req res).vary m = true := by
  unfold allowedHeadersStep
  split
  · try dsimp only
    split
    · split
      · try dsimp only
        split
        · exact h
        · exact h
      · exact reflectStep_vary_mono _ _ _ h
    · exact reflectStep_vary_mono _ _ _ h
  · try dsimp only
    split
    · split
      · try dsimp only
        split
        · exact h
        · exact h
      · exact reflectStep_vary_mono _ _ _ h
    · exact reflectStep_vary_mono _ _ _ h

theorem allowedStep_body (o : ResolvedOptions) (req : Req) (res : Res) :
    (allowedHeadersStep o req res).body = res.body := by
  unfold allowedHeadersStep
  split
  · try dsimp only
    split
    · split
      · try dsimp only
        split <;> rfl
      · exact reflectStep_body _ _
    · exact reflectStep_body _ _
  · try dsimp only
    split
    · split
      · try dsimp only
        split <;> rfl
      · exact reflectStep_body _ _
    · exact reflectStep_body _ _

theorem cacheStep_getH (o : ResolvedOptions) (res : Res) (m : String)
    (h : m ≠ "Access-Control-Max-Age") :
    getH (cacheHeadersStep o res).headers m = getH res.headers m := by
  unfold cacheHeadersStep
  split
  · rfl
  · try dsimp only
    split
    · rfl
    · rw [setResHeader_headers, getH_setH, if_neg h]
  · split
    · rfl
    · rw [setResHeader_headers, getH_setH, if_neg h]

theorem cacheStep_vary (o : ResolvedOptions) (res : Res) :
    (cacheHeadersStep o res).vary = res.vary := by
  unfold cacheHeadersStep
  split
  · rfl
  · try dsimp only
    split <;> rfl
  · split <;> rfl

theorem cacheStep_body (o : ResolvedOptions) (res : Res) :
    (cacheHeadersStep o res).body = res.body := by
  unfold cacheHeadersStep
  split
  · rfl
  · try dsimp only
    split <;> rfl
  · split <;> rfl

theorem exposedStep_getH (o : ResolvedOptions) (res : Res) (m : String)
    (h : m ≠ "Access-Control-Expose-Headers") :
    getH (exposedHeadersStep o res).headers m = getH res.headers m := by
  unfold exposedHeadersStep
  split
  · rfl
  · split
    · try dsimp only
      split
      · rfl
      · rw [setResHeader_headers, getH_setH, if_neg h]
    · rfl

theorem exposedStep_vary (o : ResolvedOptions) (res : Res) :
    (exposedHeadersStep o res).vary = res.vary := by
  unfold exposedHeadersStep
  split
  · rfl
  · split
    · try dsimp only
      split <;> rfl
    · rfl

theorem exposedStep_body (o : ResolvedOptions) (res : Res) :
    (exposedHeadersStep o res).body = res.body := by
  unfold exposedHeadersStep
  split
  · rfl
  · split
    · try dsimp only
      split <;> rfl
    · rfl

/-! ### Composite frame lemmas over the two pipelines and the handler -/

theorem preflightPipeline_getH_origin (o : ResolvedOptions) (req : Req) (res : Res) (m : String)
    (h1 : m ≠ "Access-Control-Allow-Credentials") (h2 : m ≠ "Access-Control-Allow-Methods")
    (h3 : m ≠ "Access-Control-Allow-Headers") (h4 : m ≠ "Access-Control-Max-Age")
    (h5 : m ≠ "Access-Control-Expose-Headers") :
    getH (preflightPipeline o req res).headers m =
      getH (originHeadersStep o req res).headers m := by
  unfold preflightPipeline
  rw [exposedStep_getH _ _ _ h5, cacheStep_getH _ _ _ h4, allowedStep_getH _ _ _ _ h3,
    methodsStep_getH _ _ _ h2, credStep_getH _ _ _ h1]

theorem actualPipeline_getH_origin (o : ResolvedOptions) (req : Req) (res : Res) (m : String)
    (h1 : m ≠ "Access-Control-Allow-Credentials")
    (h5 : m ≠ "Access-Control-Expose-Headers") :
    getH (actualPipeline o req res).headers m =
      getH (originHeadersStep o req res).headers m := by
  unfold actualPipeline
  rw [exposedStep_getH _ _ _ h5, credStep_getH _ _ _ h1]

theorem preflightPipeline_getH_cred (o : ResolvedOptions) (req : Req) (res : Res) (m : String)
    (h2 : m ≠ "Access-Control-Allow-Methods") (h3 : m ≠ "Access-Control-Allow-Headers")
    (h4 : m ≠ "Access-Control-Max-Age") (h5 : m ≠ "Access-Control-Expose-Headers") :
    getH (preflightPipeline o req res).headers m =
      getH (credentialsHeadersStep o (originHeadersStep o req res)).headers m := by
  unfold preflightPipeline
  rw [exposedStep_getH _ _ _ h5, cacheStep_getH _ _ _ h4, allowedStep_getH _ _ _ _ h3,
    methodsStep_getH _ _ _ h2]

theorem actualPipeline_getH_cred (o : ResolvedOptions) (req : Req) (res : Res) (m : String)
    (h5 : m ≠ "Access-Control-Expose-Headers") :
    getH (actualPipeline o req res).headers m =
      getH (credentialsHeadersStep o (originHeadersStep o req res)).headers m := by
  unfold actualPipeline
  rw [exposedStep_getH _ _ _ h5]

theorem preflightPipeline_vary_mono (o : ResolvedOptions) (req : Req) (res : Res) (m : String)
    (h : hasVary (originHeadersStep o req res).vary m = true) :
    hasVary (preflightPipeline o req res).vary m = true := by
  unfold preflightPipeline
  rw [exposedStep_vary, cacheStep_vary]
  apply allowedStep_vary_mono
  rw [methodsStep_vary, credStep_vary]
  exact h

theorem actualPipeline_vary_mono (o : ResolvedOptions) (req : Req) (res : Res) (m : String)
    (h : hasVary (originHeadersStep o req res).vary m = true) :
    hasVary (actualPipeline o req res).vary m = true := by
  unfold actualPipeline
  rw [exposedStep_vary, credStep_vary]
  exact h

theorem preflightPipeline_body (o : ResolvedOptions) (req : Req) (res : Res) :
    (preflightPipeline o req res).body = res.body := by
  unfold preflightPipeline
  rw [exposedStep_body, cacheStep_body, allowedStep_body, methodsStep_body, credStep_body,
    originStep_body]

theorem actualPipeline_body (o : ResolvedOptions) (req : Req) (res : Res) :
    (actualPipeline o req res).body = res.body := by
  unfold actualPipeline
  rw [exposedStep_body, credStep_body, originStep_body]

theorem corsHandler_getH_origin (o : ResolvedOptions) (req : Req) (res : Res) (m : String)
    (h1 : m ≠ "Access-Control-Allow-Credentials") (h2 : m ≠ "Access-Control-Allow-Methods")
    (h3 : m ≠ "Access-Control-Allow-Headers") (h4 : m ≠ "Access-Control-Max-Age")
    (h5 : m ≠ "Access-Control-Expose-Headers") (h6 : m ≠ "Content-Length") :
    getH (corsHandler o req res).1.headers m =
      getH (originHeadersStep o req res).headers m := by
  unfold corsHandler
  split
  · try dsimp only
    split
    · exact preflightPipeline_getH_origin o req res m h1 h2 h3 h4 h5
    · show getH (setH (preflightPipeline o req res).headers "Content-Length" "0") m = _
      rw [getH_setH, if_neg h6]
      exact preflightPipeline_getH_origin o req res m h1 h2 h3 h4 h5
  · exact actualPipeline_getH_origin o req res m h1 h5

theorem corsHandler_getH_cred (o : ResolvedOptions) (req : Req) (res : Res) (m : String)
    (h2 : m ≠ "Access-Control-Allow-Methods") (h3 : m ≠ "Access-Control-Allow-Headers")
    (h4 : m ≠ "Access-Control-Max-Age") (h5 : m ≠ "Access-Control-Expose-Headers")
    (h6 : m ≠ "Content-Length") :
    getH (corsHandler o req res).1.headers m =
      getH (credentialsHeadersStep o (originHeadersStep o req res)).headers m := by
  unfold corsHandler
  split
  · try dsimp only
    split
    · exact preflightPipeline_getH_cred o req res m h2 h3 h4 h5
    · show getH (setH (preflightPipeline o req res).headers "Content-Length" "0") m = _
      rw [getH_setH, if_neg h6]
      exact preflightPipeline_getH_cred o req res m h2 h3 h4 h5
  · exact actualPipeline_getH_cred o req res m h5

theorem corsHandler_vary_mono (o : ResolvedOptions) (req : Req) (res : Res) (m : String)
    (h : hasVary (originHeadersStep o req res).vary m = true) :
    hasVary (corsHandler o req res).1.vary m = true := by
  unfold corsHandler
  split
  · try dsimp only
    split
    · exact preflightPipeline_vary_mono o req res m h
    · show hasVary (preflightPipeline o req res).vary m = true
      exact preflightPipeline_vary_mono o req res m h
  · exact actualPipeline_vary_mono o req res m h

/-! ### Characterizations of the single-header steps -/

theorem credStep_acac (o : ResolvedOptions) (res : Res) :
    getH (credentialsHeadersStep o res).headers "Access-Control-Allow-Credentials" =
      if o.credentials = some (CredVal.bool true) then some "true"
      else getH res.headers "Access-Control-Allow-Credentials" := by
  by_cases h : o.credentials = some (CredVal.bool true)
  · rw [if_pos h]
    unfold credentialsHeadersStep
    rw [h]
    show getH (setH res.headers "Access-Control-Allow-Credentials" "true")
      "Access-Control-Allow-Credentials" = some "true"
    rw [getH_setH, if_pos rfl]
  · rw [if_neg h]
    unfold credentialsHeadersStep
    cases hc : o.credentials with
    | none => rfl
    | some cv =>
        cases cv with
        | bool b =>
            cases b
            · rfl
            · exact absurd hc h
        | other t => rfl

theorem cacheStep_acma (o : ResolvedOptions) (res : Res) (v : MaxAgeVal)
    (hv : o.maxAge = some v) (hne : maxAgeToString v ≠ "") :
    getH (cacheHeadersStep o res).headers "Access-Control-Max-Age" =
      some (maxAgeToString v) := by
  cases v with
  | num n =>
      have hne2 : toString n ≠ "" := hne
      unfold cacheHeadersStep
      rw [hv]
      show getH (if toString n = "" then res
        else setResHeader res "Access-Control-Max-Age" (toString n)).headers
        "Access-Control-Max-Age" = _
      rw [if_neg hne2]
      rw [setResHeader_headers, getH_setH, if_pos rfl]
      rfl
  | str s =>
      have hne2 : s ≠ "" := hne
      unfold cacheHeadersStep
      rw [hv]
      show getH (if s = "" then res
        else setResHeader res "Access-Control-Max-Age" s).headers
        "Access-Control-Max-Age" = _
      rw [if_neg hne2]
      rw [setResHeader_headers, getH_setH, if_pos rfl]
      rfl

theorem originStep_reflect (o : ResolvedOptions) (req : Req) (res : Res) (s : String)
    (hor : req.origin = some s) (hne : s ≠ "")
    (hpol : isPatternOrList o.origin = true) :
    originHeadersStep o req res =
      if isOriginAllowed (some s) o.origin = true then
        setResHeader (addResVary res "Origin") "Access-Control-Allow-Origin" s
      else res := by
  cases ho : o.origin with
  | bool b => rw [ho] at hpol; simp [isPatternOrList] at hpol
  | str t => rw [ho] at hpol; simp [isPatternOrList] at hpol
  | pattern t =>
      simp only [originHeadersStep, ho, hor]
      by_cases hA : isOriginAllowed (some s) (Origin.pattern t) = true
      · rw [if_pos ⟨hA, hne⟩, if_pos hA]
      · rw [if_neg (fun hh => hA hh.1), if_neg hA]
  | list es =>
      simp only [originHeadersStep, ho, hor]
      by_cases hA : isOriginAllowed (some s) (Origin.list es) = true
      · rw [if_pos ⟨hA, hne⟩, if_pos hA]
      · rw [if_neg (fun hh => hA hh.1), if_neg hA]

theorem originStep_noOrigin (o : ResolvedOptions) (req : Req) (res : Res)
    (hor : req.origin = none ∨ req.origin = some "")
    (hpol : isPatternOrList o.origin = true) :
    originHeadersStep o req res = res := by
  cases ho : o.origin with
  | bool b => rw [ho] at hpol; simp [isPatternOrList] at hpol
  | str t => rw [ho] at hpol; simp [isPatternOrList] at hpol
  | pattern t =>
      rcases hor with h | h
      · simp only [originHeadersStep, ho, h]
      · simp only [originHeadersStep, ho, h]
        rw [if_neg (fun hh => hh.2 rfl)]
  | list es =>
      rcases hor with h | h
      · simp only [originHeadersStep, ho, h]
      · simp only [originHeadersStep, ho, h]
        rw [if_neg (fun hh => hh.2 rfl)]

theorem corsMdlwrOrigin_abort (options : OptionsT) (req : Req) (res : Res)
    (err : Option Err) (origin : Option Origin)
    (h : err.isSome = true ∨ truthyYield origin = false) :
    corsMdlwrOrigin options req res err origin = (res, [err]) := by
  cases err with
  | some e => rfl
  | none =>
      have ht : truthyYield origin = false := by
        rcases h with h | h
        · exact absurd h (by decide)
        · exact h
      cases origin with
      | none => rfl
      | some v =>
          have hv : truthyOrigin v = false := ht
          show (if truthyOrigin v then
                  ((corsHandler (resolveOptions options v) req res).1,
                    if (corsHandler (resolveOptions options v) req res).2 then [none] else [])
                else (res, [none])) = (res, [none])
          rw [hv, if_neg (fun hh => Bool.noConfusion hh)]

theorem orDefault_none {α : Type} (x : Option α) : orDefault x none = x := by
  cases x <;> rfl

theorem orDefault_some {α : Type} (x : Option α) (d : α) :
    orDefault x (some d) = some (x.getD d) := by
  cases x <;> rfl

/-! ### The claims -/

/-- C8: merging a supplied partial configuration over the built-in defaults
yields a configuration in which every supplied field overrides the default
and every unspecified field keeps its default (`origin` `"*"`, `methods`
`GET,HEAD,PUT,PATCH,POST,DELETE`, `preflightContinue` `false`,
`optionsSuccessStatus` `204`; the remaining fields default to absent).  The
merge is a pure function producing a fresh record, so the `defaults`
constant is never mutated. -/
theorem merge_layers (o : OptionsT) :
    mergeOptions o =
      { origin := some (o.origin.getD (OriginOpt.val (Origin.str "*"))),
        methods := some (o.methods.getD (StrOrList.str "GET,HEAD,PUT,PATCH,POST,DELETE")),
        allowedHeaders := o.allowedHeaders,
        headers := o.headers,
        exposedHeaders := o.exposedHeaders,
        credentials := o.credentials,
        maxAge := o.maxAge,
        preflightContinue := some (o.preflightContinue.getD false),
        optionsSuccessStatus := some (o.optionsSuccessStatus.getD 204) } := by
  simp only [mergeOptions, defaults, orDefault_none, orDefault_some]

/-- C1: the claim says the host continuation is invoked exactly once per
request on every branch.  The code violates this: for a plain GET request
under the default configuration (origin `"*"`), `corsHandler` invokes
`next()` and then the unconditional `next()` at the end of
`corsMdlwrOptions` (src/index.ts:97) runs as well, so the continuation is
invoked twice.  This theorem evaluates the middleware at that failing
input. -/
theorem next_invoked_twice_on_actual_request :
    (corsMiddleware (CorsOptsInput.staticOpts emptyOptions)
        ⟨some "GET", some "http://a.com", none, []⟩ emptyRes).nextCalls =
      [none, none] := rfl

/-- C2: for every request whose method is OPTIONS (case-insensitively) with
`preflightContinue` false, the engine terminates the response with the
configured `optionsSuccessStatus`, a `Content-Length: 0` header, an
unchanged (empty) body, and does not continue to the next handler. -/
theorem preflight_short_circuit (o : ResolvedOptions) (req : Req) (res : Res) (s : Nat)
    (hm : isOptionsMethod req.method = true)
    (hpc : o.preflightContinue.getD false = false)
    (hs : o.optionsSuccessStatus = some s) :
    (corsHandler o req res).1.statusCode = some s ∧
    getH (corsHandler o req res).1.headers "Content-Length" = some "0" ∧
    (corsHandler o req res).1.ended = true ∧
    (corsHandler o req res).1.body = res.body ∧
    (corsHandler o req res).2 = false := by
  unfold corsHandler
  rw [hm, if_pos rfl]
  try dsimp only
  rw [hpc, if_neg (fun hh => Bool.noConfusion hh)]
  refine ⟨hs, ?_, rfl, ?_, rfl⟩
  · show getH (setH (preflightPipeline o req res).headers "Content-Length" "0")
      "Content-Length" = some "0"
    rw [getH_setH, if_pos rfl]
  · show (preflightPipeline o req res).body = res.body
    exact preflightPipeline_body o req res

/-- Witness for C2: the merged default configuration (status 204) on an
OPTIONS request against a fresh response. -/
theorem preflight_short_circuit_witness :
    isOptionsMethod (some "OPTIONS") = true ∧
    (resolveOptions (mergeOptions emptyOptions) (Origin.str "*")).preflightContinue.getD false
        = false ∧
    (resolveOptions (mergeOptions emptyOptions) (Origin.str "*")).optionsSuccessStatus
        = some 204 ∧
    ((corsHandler (resolveOptions (mergeOptions emptyOptions) (Origin.str "*"))
        ⟨some "OPTIONS", some "http://a.com", none, []⟩ emptyRes).1.statusCode = some 204 ∧
      getH (corsHandler (resolveOptions (mergeOptions emptyOptions) (Origin.str "*"))
        ⟨some "OPTIONS", some "http://a.com", none, []⟩ emptyRes).1.headers "Content-Length"
        = some "0" ∧
      (corsHandler (resolveOptions (mergeOptions emptyOptions) (Origin.str "*"))
        ⟨some "OPTIONS", some "http://a.com", none, []⟩ emptyRes).1.ended = true ∧
      (corsHandler (resolveOptions (mergeOptions emptyOptions) (Origin.str "*"))
        ⟨some "OPTIONS", some "http://a.com", none, []⟩ emptyRes).1.body = emptyRes.body ∧
      (corsHandler (resolveOptions (mergeOptions emptyOptions) (Origin.str "*"))
        ⟨some "OPTIONS", some "http://a.com", none, []⟩ emptyRes).2 = false) :=
  ⟨by decide, rfl, rfl,
    preflight_short_circuit (resolveOptions (mergeOptions emptyOptions) (Origin.str "*"))
      ⟨some "OPTIONS", some "http://a.com", none, []⟩ emptyRes 204 (by decide) rfl rfl⟩

/-- C9: the Header Decision Engine is deterministic and a pure function of
the resolved configuration and the request metadata it reads (method,
Origin header, Access-Control-Request-Headers header): two requests that
agree on those fields produce identical response actions, whatever their
other headers are. -/
theorem decision_engine_deterministic (o : ResolvedOptions) (r₁ r₂ : Req) (res : Res)
    (hm : r₁.method = r₂.method) (ho : r₁.origin = r₂.origin) (ha : r₁.acrh = r₂.acrh) :
    corsHandler o r₁ res = corsHandler o r₂ res := by
  cases r₁
  cases r₂
  simp only at hm ho ha
  subst hm
  subst ho
  subst ha
  rfl

/-- C3: with a Pattern or List origin policy and a non-empty request Origin
header, the engine reflects the request origin (not the pattern) into
`Access-Control-Allow-Origin` and appends `Origin` to `Vary` exactly when
some entry matches (strings by equality, patterns by their test, a bare
boolean `true` unconditionally — the match relation `isOriginAllowed`
embedded from src/index.ts:167-193); when nothing matches it sets no
`Access-Control-Allow-Origin` header at all. -/
theorem origin_reflection (o : ResolvedOptions) (req : Req) (res : Res) (s : String)
    (hor : req.origin = some s) (hne : s ≠ "")
    (hpol : isPatternOrList o.origin = true)
    (hini : getH res.headers "Access-Control-Allow-Origin" = none) :
    (isOriginAllowed req.origin o.origin = true →
        getH (corsHandler o req res).1.headers "Access-Control-Allow-Origin" = some s ∧
        hasVary (corsHandler o req res).1.vary "Origin" = true) ∧
    (isOriginAllowed req.origin o.origin = false →
        getH (corsHandler o req res).1.headers "Access-Control-Allow-Origin" = none) := by
  have hstep := originStep_reflect o req res s hor hne hpol
  constructor
  · intro hA
    rw [hor] at hA
    rw [hA, if_pos rfl] at hstep
    constructor
    · rw [corsHandler_getH_origin o req res _ (by decide) (by decide) (by decide) (by decide)
        (by decide) (by decide), hstep]
      rw [setResHeader_headers, getH_setH, if_pos rfl]
    · apply corsHandler_vary_mono
      rw [hstep, setResHeader_vary]
      exact hasVary_addVary_self _ _
  · intro hA
    rw [hor] at hA
    rw [hA, if_neg (fun hh => Bool.noConfusion hh)] at hstep
    rw [corsHandler_getH_origin o req res _ (by decide) (by decide) (by decide) (by decide)
      (by decide) (by decide), hstep]
    exact hini

/-- Witness for C3: the spec's example, origin policy
`["http://a.com", /\.b\.com$/]` (the pattern embedded as a `.b.com`
suffix test) and request `Origin: http://x.b.com`. -/
theorem origin_reflection_witness :
    (⟨some "GET", some "http://x.b.com", none, []⟩ : Req).origin = some "http://x.b.com" ∧
    "http://x.b.com" ≠ "" ∧
    isPatternOrList (Origin.list [OriginEntry.str "http://a.com",
        OriginEntry.pattern (fun t => List.isSuffixOf ".b.com".data t.data)]) = true ∧
    getH emptyRes.headers "Access-Control-Allow-Origin" = none ∧
    isOriginAllowed (some "http://x.b.com") (Origin.list [OriginEntry.str "http://a.com",
        OriginEntry.pattern (fun t => List.isSuffixOf ".b.com".data t.data)]) = true ∧
    (getH (corsHandler
        ⟨Origin.list [OriginEntry.str "http://a.com",
          OriginEntry.pattern (fun t => List.isSuffixOf ".b.com".data t.data)],
         none, none, none, none, none, none, none, none⟩
        ⟨some "GET", some "http://x.b.com", none, []⟩ emptyRes).1.headers
        "Access-Control-Allow-Origin" = some "http://x.b.com" ∧
      hasVary (corsHandler
        ⟨Origin.list [OriginEntry.str "http://a.com",
          OriginEntry.pattern (fun t => List.isSuffixOf ".b.com".data t.data)],
         none, none, none, none, none, none, none, none⟩
        ⟨some "GET", some "http://x.b.com", none, []⟩ emptyRes).1.vary "Origin" = true) :=
  ⟨rfl, by decide, rfl, rfl, by decide,
    (origin_reflection
      ⟨Origin.list [OriginEntry.str "http://a.com",
        OriginEntry.pattern (fun t => List.isSuffixOf ".b.com".data t.data)],
       none, none, none, none, none, none, none, none⟩
      ⟨some "GET", some "http://x.b.com", none, []⟩ emptyRes "http://x.b.com"
      rfl (by decide) rfl rfl).1 (by decide)⟩

/-- C10: when the request carries no Origin header (or an empty one) and the
origin policy is a Pattern or a List, the engine never sets
`Access-Control-Allow-Origin` — even when an entry would match the absent
origin — because the value it would reflect is the missing request
origin. -/
theorem absent_origin_no_reflection (o : ResolvedOptions) (req : Req) (res : Res)
    (hor : req.origin = none ∨ req.origin = some "")
    (hpol : isPatternOrList o.origin = true)
    (hini : getH res.headers "Access-Control-Allow-Origin" = none) :
    getH (corsHandler o req res).1.headers "Access-Control-Allow-Origin" = none := by
  rw [corsHandler_getH_origin o req res _ (by decide) (by decide) (by decide) (by decide)
    (by decide) (by decide)]
  rw [originStep_noOrigin o req res hor hpol]
  exact hini

/-- Witness for C10: a pattern matching every string (it would even match
the `"undefined"` coercion of the absent origin), yet no header is set. -/
theorem absent_origin_no_reflection_witness :
    ((⟨some "GET", none, none, []⟩ : Req).origin = none ∨
      (⟨some "GET", none, none, []⟩ : Req).origin = some "") ∧
    isPatternOrList (Origin.pattern (fun _ => true)) = true ∧
    getH emptyRes.headers "Access-Control-Allow-Origin" = none ∧
    getH (corsHandler
        ⟨Origin.pattern (fun _ => true), none, none, none, none, none, none, none, none⟩
        ⟨some "GET", none, none, []⟩ emptyRes).1.headers
      "Access-Control-Allow-Origin" = none :=
  ⟨Or.inl rfl, rfl, rfl,
    absent_origin_no_reflection
      ⟨Origin.pattern (fun _ => true), none, none, none, none, none, none, none, none⟩
      ⟨some "GET", none, none, []⟩ emptyRes (Or.inl rfl) rfl rfl⟩

/-- C7: `Access-Control-Allow-Credentials` is set (to the string `"true"`)
when the configured credentials value is exactly the boolean `true`, and
for every other value (truthy non-booleans included) the header is omitted
entirely — absent from the response, not merely different from
`"true"`. -/
theorem credentials_iff_bool_true (o : ResolvedOptions) (req : Req) (res : Res)
    (hini : getH res.headers "Access-Control-Allow-Credentials" = none) :
    (o.credentials = some (CredVal.bool true) →
        getH (corsHandler o req res).1.headers "Access-Control-Allow-Credentials"
          = some "true") ∧
    (o.credentials ≠ some (CredVal.bool true) →
        getH (corsHandler o req res).1.headers "Access-Control-Allow-Credentials"
          = none) := by
  rw [corsHandler_getH_cred o req res _ (by decide) (by decide) (by decide) (by decide)
    (by decide)]
  rw [credStep_acac]
  constructor
  · intro h
    rw [if_pos h]
  · intro h
    rw [if_neg h]
    rw [originStep_getH o req res _ (by decide), hini]

/-- Witness for C7, both directions: credentials exactly boolean `true`
sets the header to `"true"`, and a truthy non-boolean credentials value
leaves the header absent. -/
theorem credentials_iff_bool_true_witness :
    getH emptyRes.headers "Access-Control-Allow-Credentials" = none ∧
    (⟨Origin.str "*", none, none, none, none, some (CredVal.bool true), none, none, none⟩
        : ResolvedOptions).credentials = some (CredVal.bool true) ∧
    getH (corsHandler
        ⟨Origin.str "*", none, none, none, none, some (CredVal.bool true), none, none, none⟩
        ⟨some "GET", some "http://a.com", none, []⟩ emptyRes).1.headers
      "Access-Control-Allow-Credentials" = some "true" ∧
    (⟨Origin.str "*", none, none, none, none, some (CredVal.other true), none, none, none⟩
        : ResolvedOptions).credentials ≠ some (CredVal.bool true) ∧
    getH (corsHandler
        ⟨Origin.str "*", none, none, none, none, some (CredVal.other true), none, none, none⟩
        ⟨some "GET", some "http://a.com", none, []⟩ emptyRes).1.headers
      "Access-Control-Allow-Credentials" = none :=
  ⟨rfl, rfl,
    (credentials_iff_bool_true
      ⟨Origin.str "*", none, none, none, none, some (CredVal.bool true), none, none, none⟩
      ⟨some "GET", some "http://a.com", none, []⟩ emptyRes rfl).1 rfl,
    by decide,
    (credentials_iff_bool_true
      ⟨Origin.str "*", none, none, none, none, some (CredVal.other true), none, none, none⟩
      ⟨some "GET", some "http://a.com", none, []⟩ emptyRes rfl).2 (by decide)⟩

/-- C6: on a preflight, a configured `maxAge` whose stringification is
non-empty is always emitted as `Access-Control-Max-Age`; numbers always
stringify non-empty, so `maxAge: 0` yields the header value `"0"` rather
than being dropped as falsy. -/
theorem max_age_header_set (o : ResolvedOptions) (req : Req) (res : Res) (v : MaxAgeVal)
    (hm : isOptionsMethod req.method = true)
    (hv : o.maxAge = some v)
    (hne : maxAgeToString v ≠ "") :
    getH (corsHandler o req res).1.headers "Access-Control-Max-Age"
      = some (maxAgeToString v) := by
  unfold corsHandler
  rw [hm, if_pos rfl]
  try dsimp only
  split
  · show getH (preflightPipeline o req res).headers "Access-Control-Max-Age" = _
    unfold preflightPipeline
    rw [exposedStep_getH _ _ _ (by decide)]
    exact cacheStep_acma o _ v hv hne
  · show getH (setH (preflightPipeline o req res).headers "Content-Length" "0")
      "Access-Control-Max-Age" = _
    rw [getH_setH, if_neg (by decide)]
    unfold preflightPipeline
    rw [exposedStep_getH _ _ _ (by decide)]
    exact cacheStep_acma o _ v hv hne

/-- Witness for C6: `maxAge: 0` on an OPTIONS request yields the header
value `"0"`. -/
theorem max_age_header_set_witness :
    isOptionsMethod (some "OPTIONS") = true ∧
    (⟨Origin.str "*", none, none, none, none, none, some (MaxAgeVal.num 0), none, some 204⟩
        : ResolvedOptions).maxAge = some (MaxAgeVal.num 0) ∧
    maxAgeToString (MaxAgeVal.num 0) ≠ "" ∧
    getH (corsHandler
        ⟨Origin.str "*", none, none, none, none, none, some (MaxAgeVal.num 0), none, some 204⟩
        ⟨some "OPTIONS", some "http://a.com", none, []⟩ emptyRes).1.headers
      "Access-Control-Max-Age" = some "0" :=
  ⟨by decide, rfl, by decide, by
    have h := max_age_header_set
      ⟨Origin.str "*", none, none, none, none, none, some (MaxAgeVal.num 0), none, some 204⟩
      ⟨some "OPTIONS", some "http://a.com", none, []⟩ emptyRes (MaxAgeVal.num 0)
      (by decide) rfl (by decide)
    simpa using h⟩

/-- C4: when the dynamic origin resolver yields an error, that error value
reaches the continuation verbatim (it is the first continuation argument)
and the response is untouched — no CORS headers are set; when the resolver
yields a falsy origin with no error, every continuation invocation carries
no error and the response is likewise untouched: a silent skip, not a
failure. -/
theorem dynamic_origin_error_and_denial (cfg : OptionsT)
    (f : Option String → Option Err × Option Origin) (req : Req) (res : Res)
    (e : Option Err) (org : Option Origin)
    (hcfg : cfg.origin = some (OriginOpt.fn f))
    (hf : f req.origin = (e, org))
    (habort : e.isSome = true ∨ truthyYield org = false) :
    (corsMiddleware (CorsOptsInput.staticOpts cfg) req res).res = res ∧
    (∀ e2, e = some e2 →
        (corsMiddleware (CorsOptsInput.staticOpts cfg) req res).nextCalls.head?
          = some (some e2)) ∧
    (e = none →
        ∀ c ∈ (corsMiddleware (CorsOptsInput.staticOpts cfg) req res).nextCalls,
          c = none) := by
  have hmerge : (mergeOptions cfg).origin = some (OriginOpt.fn f) := by
    show orDefault cfg.origin defaults.origin = some (OriginOpt.fn f)
    rw [hcfg]
    rfl
  have htr : truthyOriginOpt (mergeOptions cfg).origin = true := by
    rw [hmerge]
    rfl
  have hres : resolveOriginValue (mergeOptions cfg) req = (e, org) := by
    unfold resolveOriginValue
    rw [hmerge]
    exact hf
  have hmain : corsMiddleware (CorsOptsInput.staticOpts cfg) req res =
      ⟨(corsMdlwrOrigin (mergeOptions cfg) req res e org).1,
        (corsMdlwrOrigin (mergeOptions cfg) req res e org).2 ++ [none]⟩ := by
    show corsMdlwrOptions req res none (some cfg) = _
    unfold corsMdlwrOptions
    try dsimp only
    simp only [Option.getD_some]
    rw [htr, if_pos rfl, hres]
  rw [hmain, corsMdlwrOrigin_abort _ _ _ e org habort]
  refine ⟨rfl, ?_, ?_⟩
  · intro e2 he2
    rw [he2]
    rfl
  · intro he c hc
    rw [he] at hc
    have hc2 : c ∈ ([none] ++ [none] : List (Option Err)) := hc
    simp only [List.mem_append, List.mem_singleton] at hc2
    rcases hc2 with h | h <;> exact h

/-- Witness for C4: a resolver that yields the error `"boom"`; it reaches
the continuation verbatim and the response is untouched. -/
theorem dynamic_origin_error_and_denial_witness :
    (⟨some (OriginOpt.fn fun _ => (some "boom", none)), none, none, none, none, none, none,
        none, none⟩ : OptionsT).origin
      = some (OriginOpt.fn fun _ => (some "boom", none)) ∧
    (fun _ => ((some "boom" : Option Err), (none : Option Origin)))
        (⟨some "GET", some "http://a.com", none, []⟩ : Req).origin
      = ((some "boom" : Option Err), (none : Option Origin)) ∧
    ((some "boom" : Option Err).isSome = true ∨ truthyYield none = false) ∧
    (corsMiddleware (CorsOptsInput.staticOpts
        ⟨some (OriginOpt.fn fun _ => (some "boom", none)), none, none, none, none, none, none,
          none, none⟩)
        ⟨some "GET", some "http://a.com", none, []⟩ emptyRes).res = emptyRes ∧
    (corsMiddleware (CorsOptsInput.staticOpts
        ⟨some (OriginOpt.fn fun _ => (some "boom", none)), none, none, none, none, none, none,
          none, none⟩)
        ⟨some "GET", some "http://a.com", none, []⟩ emptyRes).nextCalls.head?
      = some (some "boom") :=
  ⟨rfl, rfl, Or.inl rfl,
    (dynamic_origin_error_and_denial
      ⟨some (OriginOpt.fn fun _ => (some "boom", none)), none, none, none, none, none, none,
        none, none⟩
      (fun _ => (some "boom", none))
      ⟨some "GET", some "http://a.com", none, []⟩ emptyRes (some "boom") none
      rfl rfl (Or.inl rfl)).1,
    (dynamic_origin_error_and_denial
      ⟨some (OriginOpt.fn fun _ => (some "boom", none)), none, none, none, none, none, none,
        none, none⟩
      (fun _ => (some "boom", none))
      ⟨some "GET", some "http://a.com", none, []⟩ emptyRes (some "boom") none
      rfl rfl (Or.inl rfl)).2.1 "boom" rfl⟩

/-- C5 is false as stated: with `allowedHeaders` configured as the empty
array (a truthy value in JavaScript, but not "non-empty") and a request
carrying `Access-Control-Request-Headers: X-Foo,X-Bar`, the claim's
fallback clause predicts the request value is reflected into
`Access-Control-Allow-Headers` with `Access-Control-Request-Headers`
appended to `Vary`; the code instead sets no `Access-Control-Allow-Headers`
at all and leaves `Vary` alone. -/
theorem allowed_headers_empty_list_counterexample :
    getH (allowedHeadersStep
        ⟨Origin.str "*", none, some (StrOrList.list []), none, none, none, none, none, none⟩
        ⟨some "OPTIONS", none, some "X-Foo,X-Bar", []⟩ emptyRes).headers
      "Access-Control-Allow-Headers" = none ∧
    hasVary (allowedHeadersStep
        ⟨Origin.str "*", none, some (StrOrList.list []), none, none, none, none, none, none⟩
        ⟨some "OPTIONS", none, some "X-Foo,X-Bar", []⟩ emptyRes).vary
      "Access-Control-Request-Headers" = false :=
  ⟨rfl, rfl⟩

/-- C5 (amended): if `allowedHeaders` (or the legacy `headers` alias) is
configured truthy — any array, even empty, or a non-empty string — then
`Access-Control-Allow-Headers` is set to the comma-joined value when that
join is non-empty and omitted when it is empty, and no reflection happens
(`Vary` is untouched); only when neither field is configured truthy does a
non-empty request `Access-Control-Request-Headers` get reflected verbatim
with `Access-Control-Request-Headers` appended to `Vary`; otherwise no
`Access-Control-Allow-Headers` header is set. -/
theorem allowed_headers_policy (o : ResolvedOptions) (req : Req) (res : Res)
    (hini : getH res.headers "Access-Control-Allow-Headers" = none) :
    (∀ v, (if truthyOptSL o.allowedHeaders then o.allowedHeaders else o.headers) = some v →
        truthySL v = true →
        getH (allowedHeadersStep o req res).headers "Access-Control-Allow-Headers"
          = (if joinSL v = "" then none else some (joinSL v)) ∧
        (allowedHeadersStep o req res).vary = res.vary) ∧
    (truthyOptSL (if truthyOptSL o.allowedHeaders then o.allowedHeaders else o.headers)
        = false →
      (∀ a, req.acrh = some a → a ≠ "" →
          getH (allowedHeadersStep o req res).headers "Access-Control-Allow-Headers"
            = some a ∧
          hasVary (allowedHeadersStep o req res).vary "Access-Control-Request-Headers"
            = true) ∧
      ((req.acrh = none ∨ req.acrh = some "") →
          getH (allowedHeadersStep o req res).headers "Access-Control-Allow-Headers"
            = none)) := by
  constructor
  · intro v hE htr
    have hred : allowedHeadersStep o req res =
        (if joinSL v = "" then res
          else setResHeader res "Access-Control-Allow-Headers" (joinSL v)) := by
      unfold allowedHeadersStep
      try dsimp only
      rw [hE]
      try dsimp only
      rw [htr, if_pos rfl]
    rw [hred]
    by_cases hj : joinSL v = ""
    · rw [if_pos hj, if_pos hj]
      exact ⟨hini, rfl⟩
    · rw [if_neg hj, if_neg hj]
      refine ⟨?_, rfl⟩
      rw [setResHeader_headers, getH_setH, if_pos rfl]
  · intro hfalse
    have hred : allowedHeadersStep o req res = reflectRequestHeaders req res := by
      unfold allowedHeadersStep
      try dsimp only
      cases hE : (if truthyOptSL o.allowedHeaders then o.allowedHeaders else o.headers) with
      | none => rfl
      | some v =>
          rw [hE] at hfalse
          have hv : truthySL v = false := hfalse
          try dsimp only
          rw [hv, if_neg (fun hh => Bool.noConfusion hh)]
    rw [hred]
    constructor
    · intro a ha hane
      have hr : reflectRequestHeaders req res =
          setResHeader (addResVary res "Access-Control-Request-Headers")
            "Access-Control-Allow-Headers" a := by
        unfold reflectRequestHeaders
        rw [ha]
        try dsimp only
        rw [if_neg hane]
      rw [hr]
      constructor
      · rw [setResHeader_headers, getH_setH, if_pos rfl]
      · rw [setResHeader_vary]
        exact hasVary_addVary_self _ _
    · intro ha
      rcases ha with h | h
      · unfold reflectRequestHeaders
        rw [h]
        exact hini
      · have hr : reflectRequestHeaders req res = res := by
          unfold reflectRequestHeaders
          rw [h]
          try dsimp only
          rw [if_pos rfl]
        rw [hr]
        exact hini

/-- Witness for C5 (amended): the reflection branch on an unconfigured
`allowedHeaders` with `Access-Control-Request-Headers: X-Foo,X-Bar`. -/
theorem allowed_headers_policy_witness :
    getH emptyRes.headers "Access-Control-Allow-Headers" = none ∧
    truthyOptSL (if truthyOptSL
        (⟨Origin.str "*", none, none, none, none, none, none, none, none⟩
          : ResolvedOptions).allowedHeaders
        then (⟨Origin.str "*", none, none, none, none, none, none, none, none⟩
          : ResolvedOptions).allowedHeaders
        else (⟨Origin.str "*", none, none, none, none, none, none, none, none⟩
          : ResolvedOptions).headers) = false ∧
    (⟨some "OPTIONS", none, some "X-Foo,X-Bar", []⟩ : Req).acrh = some "X-Foo,X-Bar" ∧
    "X-Foo,X-Bar" ≠ "" ∧
    (getH (allowedHeadersStep
        ⟨Origin.str "*", none, none, none, none, none, none, none, none⟩
        ⟨some "OPTIONS", none, some "X-Foo,X-Bar", []⟩ emptyRes).headers
      "Access-Control-Allow-Headers" = some "X-Foo,X-Bar" ∧
      hasVary (allowedHeadersStep
        ⟨Origin.str "*", none, none, none, none, none, none, none, none⟩
        ⟨some "OPTIONS", none, some "X-Foo,X-Bar", []⟩ emptyRes).vary
      "Access-Control-Request-Headers" = true) :=
  ⟨rfl, rfl, rfl, by decide,
    ((allowed_headers_policy
      ⟨Origin.str "*", none, none, none, none, none, none, none, none⟩
      ⟨some "OPTIONS", none, some "X-Foo,X-Bar", []⟩ emptyRes rfl).2 rfl).1
      "X-Foo,X-Bar" rfl (by decide)⟩

/-- Witness for C9: two requests differing only in headers the engine never
reads. -/
theorem decision_engine_deterministic_witness :
    (⟨some "GET", some "http://a.com", none, [("X-Custom", "1")]⟩ : Req).method
        = (⟨some "GET", some "http://a.com", none, []⟩ : Req).method ∧
    (⟨some "GET", some "http://a.com", none, [("X-Custom", "1")]⟩ : Req).origin
        = (⟨some "GET", some "http://a.com", none, []⟩ : Req).origin ∧
    (⟨some "GET", some "http://a.com", none, [("X-Custom", "1")]⟩ : Req).acrh
        = (⟨some "GET", some "http://a.com", none, []⟩ : Req).acrh ∧
    corsHandler ⟨Origin.str "*", none, none, none, none, none, none, none, none⟩
        ⟨some "GET", some "http://a.com", none, [("X-Custom", "1")]⟩ emptyRes =
      corsHandler ⟨Origin.str "*", none, none, none, none, none, none, none, none⟩
        ⟨some "GET", some "http://a.com", none, []⟩ emptyRes :=
  ⟨rfl, rfl, rfl,
    decision_engine_deterministic
      ⟨Origin.str "*", none, none, none, none, none, none, none, none⟩
      ⟨some "GET", some "http://a.com", none, [("X-Custom", "1")]⟩
      ⟨some "GET", some "http://a.com", none, []⟩ emptyRes rfl rfl rfl⟩

end Cors
